import Mathlib

set_option maxRecDepth 8192

/-!
Verification development for the PiGx RNA-seq snakefile front end
(`snakefile.py`): the sample-sheet `lookup` helper, the coverage-tool
branch selection (`BIGWIG_OUTPUT`), the target-group table (`targets`),
the resolution of selected target groups into the required output-file
list (`OUTPUT_FILES`), the single-end classification (`isSingleEnd`), and
the change reporting done in the `onstart`/`onsuccess` handlers.

Python strings are modelled as `List Char` (`PyStr`), so that iterating a
string — which is what `itertools.chain.from_iterable` does when it is
handed a list of strings rather than a list of lists — is representable.
Python dictionaries with string keys are association lists, `os.path.join`
is `pyJoin2`, and code that can raise (a `KeyError` from a dictionary
subscript, the `sys.exit` on a bad coverage tool) lives in
`Except PyStr`.
-/

deriving instance DecidableEq for Except

namespace PigxRnaseq

/-- Python `str`, as its list of characters. -/
abbrev PyStr := List Char

/-- Python `os.path.join` on two components (posixpath semantics: an
absolute second component replaces the first; otherwise the parts are
glued, inserting a slash unless the first part is empty or already ends
with one). -/
def pyJoin2 (a b : PyStr) : PyStr :=
  if b.head? = some '/' then b
  else if a = [] then a ++ b
  else if a.getLast? = some '/' then a ++ b
  else a ++ '/' :: b

/-- A sample-sheet row: a Python dict from column name to cell value. -/
abbrev Record := List (PyStr × PyStr)

/-- Dictionary read; the first binding wins (bindings in a dict are unique). -/
def Record.get (r : Record) (k : PyStr) : Option PyStr :=
  match r with
  | [] => none
  | (k2, v) :: rest => if k2 = k then some v else Record.get rest k

/-- Subscripting a dict, `line[column]`: raises `KeyError` when the key is
absent. -/
def getField (r : Record) (k : PyStr) : Except PyStr PyStr :=
  match Record.get r k with
  | some v => Except.ok v
  | none => Except.error ("KeyError: ".data ++ k)

/-- The predicate argument of `lookup`: `inspect.isfunction(predicate)`
distinguishes a test function from an exact-match value. -/
inductive Pred where
  | value : PyStr → Pred
  | func : (PyStr → Bool) → Pred

/-- Applying the predicate to a cell value (the two branches of the
`inspect.isfunction` dispatch). -/
def Pred.test : Pred → PyStr → Bool
  | Pred.value v, s => decide (s = v)
  | Pred.func f, s => f s

/-- The record-filtering comprehension inside `lookup`.  It keeps the sheet
order, and it raises at the first record whose subscript `line[column]` is
missing (both the function-predicate branch and the value-predicate branch
subscript every line). -/
def filterRecords (sheet : List Record) (column : PyStr) (p : Pred) :
    Except PyStr (List Record) :=
  match sheet with
  | [] => Except.ok []
  | r :: rs =>
      match getField r column with
      | Except.error e => Except.error e
      | Except.ok v =>
          match filterRecords rs column p with
          | Except.error e => Except.error e
          | Except.ok rest => Except.ok (if p.test v then r :: rest else rest)

/-- Values of the requested fields of one record, in field order. -/
def fieldsOf (r : Record) (fields : List PyStr) : Except PyStr (List PyStr) :=
  match fields with
  | [] => Except.ok []
  | f :: fs =>
      match getField r f with
      | Except.error e => Except.error e
      | Except.ok v =>
          match fieldsOf r fs with
          | Except.error e => Except.error e
          | Except.ok vs => Except.ok (v :: vs)

/-- The flattening comprehension
`[record[field] for record in records for field in fields]`. -/
def extractFields (records : List Record) (fields : List PyStr) :
    Except PyStr (List PyStr) :=
  match records with
  | [] => Except.ok []
  | r :: rs =>
      match fieldsOf r fields with
      | Except.error e => Except.error e
      | Except.ok vs =>
          match extractFields rs fields with
          | Except.error e => Except.error e
          | Except.ok rest => Except.ok (vs ++ rest)

/-- The snakefile helper `lookup(column, predicate, fields)`. -/
def lookup (sheet : List Record) (column : PyStr) (predicate : Pred)
    (fields : List PyStr) : Except PyStr (List PyStr) :=
  match filterRecords sheet column predicate with
  | Except.error e => Except.error e
  | Except.ok records => extractFields records fields

/-- Calling `lookup` without the `fields` argument: the Python parameter
default is `fields=[]`. -/
def lookupDefaultFields (sheet : List Record) (column : PyStr)
    (predicate : Pred) : Except PyStr (List PyStr) :=
  lookup sheet column predicate []

/-- The records whose value in `column` satisfies the predicate, in sheet
order (the intended value of the filtering comprehension when every record
has the column). -/
def matchingRecords (sheet : List Record) (column : PyStr) (p : Pred) :
    List Record :=
  sheet.filter (fun r =>
    match Record.get r column with
    | some v => p.test v
    | none => false)

/-- The snakefile helper `isSingleEnd`: looks the sample up by name, counts
the populated (truthy, i.e. non-empty) read-file fields, returns `False`
for two, `True` for one, and falls off the end of the function (Python
`None`) for any other count. -/
def isSingleEnd (sheet : List Record) (sample : PyStr) :
    Except PyStr (Option Bool) :=
  match lookup sheet "name".data (Pred.value sample)
      ["reads".data, "reads2".data] with
  | Except.error e => Except.error e
  | Except.ok files =>
      let count := files.countP (fun f => !f.isEmpty)
      if count = 2 then Except.ok (some false)
      else if count = 1 then Except.ok (some true)
      else Except.ok none

/-- `SAMPLES = [line[NAME] for line in SAMPLE_SHEET]` with NAME = "name". -/
def SAMPLES (sheet : List Record) : Except PyStr (List PyStr) :=
  match sheet with
  | [] => Except.ok []
  | r :: rs =>
      match getField r "name".data with
      | Except.error e => Except.error e
      | Except.ok v =>
          match SAMPLES rs with
          | Except.error e => Except.error e
          | Except.ok vs => Except.ok (v :: vs)

/-- The configuration values read by the target-resolution front end of the
snakefile. `target` is `config[execution][target]`; the empty list stands
for a falsy (unset) value. -/
structure Config where
  outputDir : PyStr
  mapper : PyStr
  coverageTool : PyStr
  samples : List PyStr
  analyses : List PyStr
  target : List PyStr

def MULTIQC_DIR (c : Config) : PyStr := pyJoin2 c.outputDir "multiqc".data

def MAPPED_READS_DIR (c : Config) : PyStr :=
  pyJoin2 c.outputDir "mapped_reads".data

def BIGWIG_DIR (c : Config) : PyStr := pyJoin2 c.outputDir "bigwig_files".data

def COUNTS_DIR (c : Config) : PyStr :=
  pyJoin2 c.outputDir "feature_counts".data

def SALMON_DIR (c : Config) : PyStr :=
  pyJoin2 c.outputDir "salmon_output".data

/-- The `sys.exit` message printed for a bad coverage tool.  The quote
characters that surround the two tool names in the source message are
omitted here. -/
def covErrMsg : PyStr :=
  "Error with the selected coverage computation method: Allowed options for coverage computation are megadepth or bamCoverage; check the settings file option under coverage->tool.".data

def bamCoverageDir (c : Config) : PyStr :=
  pyJoin2 (pyJoin2 (BIGWIG_DIR c) c.mapper) "bamCoverage".data

def megadepthDir (c : Config) : PyStr :=
  pyJoin2 (pyJoin2 (BIGWIG_DIR c) c.mapper) "megadepth".data

/-- `BIGWIG_OUTPUT`: forward, reverse and combined bigwig per sample when
the coverage tool is bamCoverage; one bigwig per sample when it is
megadepth; otherwise the module exits with `covErrMsg` before the target
table below is ever built. -/
def BIGWIG_OUTPUT (c : Config) : Except PyStr (List PyStr) :=
  if c.coverageTool = "bamCoverage".data then
    Except.ok
      ((c.samples.map (fun s => pyJoin2 (bamCoverageDir c) (s ++ ".forward.bw".data)))
        ++ (c.samples.map (fun s => pyJoin2 (bamCoverageDir c) (s ++ ".reverse.bw".data)))
        ++ (c.samples.map (fun s => pyJoin2 (bamCoverageDir c) (s ++ ".bw".data))))
  else if c.coverageTool = "megadepth".data then
    Except.ok (c.samples.map (fun s => pyJoin2 (megadepthDir c) (s ++ ".all.bw".data)))
  else Except.error covErrMsg

def reportDirMapper (c : Config) : PyStr :=
  pyJoin2 (pyJoin2 c.outputDir "report".data) c.mapper

def reportDirSalmon (c : Config) : PyStr :=
  pyJoin2 (pyJoin2 c.outputDir "report".data) "salmon".data

/-- `COLLATED_DESEQ_MAPPER_OUTPUT` (empty when no DE analyses are
configured, since `if DE_ANALYSIS_LIST:` is then falsy). -/
def COLLATED_DESEQ_MAPPER_OUTPUT (c : Config) : List PyStr :=
  if c.analyses = [] then []
  else (c.analyses.map (fun a => pyJoin2 (reportDirMapper c) (a ++ ".deseq.report.html".data)))
    ++ [pyJoin2 (reportDirMapper c) "collated.deseq_results.tsv".data]

/-- `COLLATED_SALMON_TRANSCR_OUTPUT`. -/
def COLLATED_SALMON_TRANSCR_OUTPUT (c : Config) : List PyStr :=
  if c.analyses = [] then []
  else (c.analyses.map (fun a => pyJoin2 (reportDirSalmon c) (a ++ ".salmon.transcripts.deseq.report.html".data)))
    ++ [pyJoin2 (reportDirSalmon c) "collated.transcripts.deseq_results.tsv".data]

/-- `COLLATED_SALMON_GENES_OUTPUT`. -/
def COLLATED_SALMON_GENES_OUTPUT (c : Config) : List PyStr :=
  if c.analyses = [] then []
  else (c.analyses.map (fun a => pyJoin2 (reportDirSalmon c) (a ++ ".salmon.genes.deseq.report.html".data)))
    ++ [pyJoin2 (reportDirSalmon c) "collated.genes.deseq_results.tsv".data]

/-- The file list of the final-report target group. -/
def finalReportFiles (c : Config) (bigwig : List PyStr) : List PyStr :=
  [pyJoin2 c.outputDir "input_annotation_stats.tsv".data,
   pyJoin2 (MULTIQC_DIR c) "multiqc_report.html".data,
   pyJoin2 (pyJoin2 (pyJoin2 (COUNTS_DIR c) "raw_counts".data) "salmon".data) "counts_from_SALMON.transcripts.tsv".data,
   pyJoin2 (pyJoin2 (pyJoin2 (COUNTS_DIR c) "raw_counts".data) "salmon".data) "counts_from_SALMON.genes.tsv".data,
   pyJoin2 (pyJoin2 (pyJoin2 (COUNTS_DIR c) "normalized".data) "salmon".data) "TPM_counts_from_SALMON.transcripts.tsv".data,
   pyJoin2 (pyJoin2 (pyJoin2 (COUNTS_DIR c) "normalized".data) "salmon".data) "TPM_counts_from_SALMON.genes.tsv".data,
   pyJoin2 (pyJoin2 (pyJoin2 (COUNTS_DIR c) "raw_counts".data) c.mapper) "counts.tsv".data,
   pyJoin2 (pyJoin2 (pyJoin2 (COUNTS_DIR c) "normalized".data) c.mapper) "deseq_normalized_counts.tsv".data,
   pyJoin2 (pyJoin2 (pyJoin2 (COUNTS_DIR c) "normalized".data) c.mapper) "deseq_size_factors.txt".data]
  ++ bigwig
  ++ COLLATED_DESEQ_MAPPER_OUTPUT c
  ++ COLLATED_SALMON_TRANSCR_OUTPUT c
  ++ COLLATED_SALMON_GENES_OUTPUT c

/-- The `targets` table of the snakefile: group name to output-file list
(group descriptions are not modelled).  `bigwig` is the already-computed
`BIGWIG_OUTPUT`; an unknown name yields `none` (a `KeyError` at the use
site). -/
def targets (c : Config) (bigwig : List PyStr) (name : PyStr) :
    Option (List PyStr) :=
  if name = "help".data then some []
  else if name = "final-report".data then some (finalReportFiles c bigwig)
  else if name = "deseq_report_star".data then
    some (COLLATED_DESEQ_MAPPER_OUTPUT c)
  else if name = "deseq_report_hisat2".data then
    some (COLLATED_DESEQ_MAPPER_OUTPUT c)
  else if name = "deseq_report_salmon_transcripts".data then
    some (COLLATED_SALMON_TRANSCR_OUTPUT c)
  else if name = "deseq_report_salmon_genes".data then
    some (COLLATED_SALMON_GENES_OUTPUT c)
  else if name = "star_map".data then
    some (c.samples.map (fun s =>
      pyJoin2 (pyJoin2 (MAPPED_READS_DIR c) "star".data) (s ++ "_Aligned.sortedByCoord.out.bam".data)))
  else if name = "star_counts".data then
    some [pyJoin2 (pyJoin2 (pyJoin2 (COUNTS_DIR c) "raw_counts".data) "star".data) "counts.tsv".data]
  else if name = "hisat2_map".data then
    some (c.samples.map (fun s =>
      pyJoin2 (pyJoin2 (MAPPED_READS_DIR c) "hisat2".data) (s ++ "_Aligned.sortedByCoord.out.bam".data)))
  else if name = "hisat2_counts".data then
    some [pyJoin2 (pyJoin2 (pyJoin2 (COUNTS_DIR c) "raw_counts".data) "hisat2".data) "counts.tsv".data]
  else if name = "genome_coverage".data then some bigwig
  else if name = "salmon_index".data then
    some [pyJoin2 (pyJoin2 c.outputDir "salmon_index".data) "pos.bin".data]
  else if name = "salmon_quant".data then
    some ((c.samples.map (fun s => pyJoin2 (pyJoin2 (SALMON_DIR c) s) "quant.sf".data))
      ++ (c.samples.map (fun s => pyJoin2 (pyJoin2 (SALMON_DIR c) s) "quant.genes.sf".data)))
  else if name = "salmon_counts".data then
    some [pyJoin2 (pyJoin2 (pyJoin2 (COUNTS_DIR c) "raw_counts".data) "salmon".data) "counts_from_SALMON.transcripts.tsv".data,
          pyJoin2 (pyJoin2 (pyJoin2 (COUNTS_DIR c) "raw_counts".data) "salmon".data) "counts_from_SALMON.genes.tsv".data,
          pyJoin2 (pyJoin2 (pyJoin2 (COUNTS_DIR c) "normalized".data) "salmon".data) "TPM_counts_from_SALMON.transcripts.tsv".data,
          pyJoin2 (pyJoin2 (pyJoin2 (COUNTS_DIR c) "normalized".data) "salmon".data) "TPM_counts_from_SALMON.genes.tsv".data]
  else if name = "multiqc".data then
    some [pyJoin2 (MULTIQC_DIR c) "multiqc_report.html".data]
  else none

/-- `selected_targets = config[execution][target] or [final-report]`. -/
def selectedTargets (c : Config) : List PyStr :=
  if c.target = [] then ["final-report".data] else c.target

/-- The comprehension `[targets[name][files] for name in selected_targets]`;
a bad group name raises `KeyError`. -/
def selectFiles (c : Config) (bigwig : List PyStr) (names : List PyStr) :
    Except PyStr (List (List PyStr)) :=
  match names with
  | [] => Except.ok []
  | n :: ns =>
      match targets c bigwig n with
      | none => Except.error ("KeyError: ".data ++ n)
      | some fs =>
          match selectFiles c bigwig ns with
          | Except.error e => Except.error e
          | Except.ok rest => Except.ok (fs :: rest)

/-- One-level flattening: `itertools.chain.from_iterable` on a list of
lists. -/
def chainFromIterable (l : List (List PyStr)) : List PyStr := l.flatten

/-- What `itertools.chain.from_iterable` computes when handed a list of
strings instead of a list of lists: each string is itself iterated,
yielding its characters as one-character strings. -/
def chainFromIterableStrs (l : List PyStr) : List PyStr :=
  l.flatten.map (fun ch => [ch])

/-- `OUTPUT_FILES`: look every selected target group up in the table,
flatten the file lists once, append the annotations archive.  The
coverage-tool check (`BIGWIG_OUTPUT`, including its possible `sys.exit`)
has already run at this point of the module, so it comes first. -/
def OUTPUT_FILES (c : Config) : Except PyStr (List PyStr) :=
  match BIGWIG_OUTPUT c with
  | Except.error e => Except.error e
  | Except.ok bigwig =>
      match selectFiles c bigwig (selectedTargets c) with
      | Except.error e => Except.error e
      | Except.ok lists =>
          Except.ok (chainFromIterable lists
            ++ [pyJoin2 c.outputDir "annotations.tgz".data])

/-- First-occurrence deduplication (helper for stating the spec reading of
RequiredFileSet). -/
def dedupFirstAux : List PyStr → List PyStr → List PyStr
  | [], _ => []
  | x :: xs, seen =>
      if x ∈ seen then dedupFirstAux xs seen
      else x :: dedupFirstAux xs (x :: seen)

/-- First-occurrence deduplication of a path list. -/
def dedupFirst (l : List PyStr) : List PyStr := dedupFirstAux l []

/-- RequiredFileSet as the spec words it: the deduplicated, flattened union
of the named groups' file lists, plus the one fixed annotations archive. -/
def specRequiredFileSet (c : Config) (bigwig : List PyStr)
    (names : List PyStr) : List PyStr :=
  dedupFirst ((names.map (fun n => (targets c bigwig n).getD [])).flatten)
    ++ [pyJoin2 c.outputDir "annotations.tgz".data]

/-- The `onstart` handler: the modification times of the required files
that already exist, as a dict from path to time.  `fsPre` is the pre-run
filesystem snapshot; `none` means the file does not exist. -/
def onstart (fsPre : PyStr → Option Nat) (outputs : List PyStr) :
    List (PyStr × Nat) :=
  match outputs with
  | [] => []
  | n :: ns =>
      match fsPre n with
      | some t => (n, t) :: onstart fsPre ns
      | none => onstart fsPre ns

/-- Dictionary lookup in the `expected_files` dict (first binding wins;
in the handler, duplicate required paths store the same time, so this
agrees with Python dict overwrite semantics). -/
def dictFind (d : List (PyStr × Nat)) (k : PyStr) : Option Nat :=
  match d with
  | [] => none
  | (k2, v) :: rest => if k2 = k then some v else dictFind rest k

/-- The per-file test of the `onsuccess` handler:
`name not in expected_files or getmtime(name) != expected_files[name]`.
`fsPost` is total: after a fully successful run every required file
exists. -/
def changedQ (expected : List (PyStr × Nat)) (fsPost : PyStr → Nat)
    (n : PyStr) : Bool :=
  match dictFind expected n with
  | none => true
  | some t => decide (fsPost n ≠ t)

/-- The `onsuccess` handler: the generated-file report, in `OUTPUT_FILES`
order. -/
def onsuccess (expected : List (PyStr × Nat)) (fsPost : PyStr → Nat)
    (outputs : List PyStr) : List PyStr :=
  outputs.filter (changedQ expected fsPost)

/-- The change predicate as the spec words it: the file did not exist in
the pre-run snapshot, or its modification time differs from the
snapshotted one. -/
def specChanged (fsPre : PyStr → Option Nat) (fsPost : PyStr → Nat)
    (n : PyStr) : Bool :=
  match fsPre n with
  | none => true
  | some t => decide (fsPost n ≠ t)

/-- Substring occurrence, used to state what the coverage error message
names. -/
def occursIn (needle hay : PyStr) : Bool :=
  match hay with
  | [] => needle.isEmpty
  | c2 :: t => needle.isPrefixOf (c2 :: t) || occursIn needle t

/-- Scenario sheet for the coverage claim: sample A is paired (both read
fields populated), sample B is single (only the first read field
populated). -/
def sheetAB : List Record :=
  [[("name".data, "A".data), ("reads".data, "A_R1.fastq.gz".data),
    ("reads2".data, "A_R2.fastq.gz".data)],
   [("name".data, "B".data), ("reads".data, "B.fastq.gz".data),
    ("reads2".data, "".data)]]

/-- Scenario configuration for the coverage claim, bamCoverage branch. -/
def cfg7bam (outDir mapper : PyStr) : Config :=
  { outputDir := outDir, mapper := mapper,
    coverageTool := "bamCoverage".data,
    samples := ["A".data, "B".data], analyses := [],
    target := ["genome_coverage".data] }

/-- Scenario configuration for the coverage claim, megadepth branch. -/
def cfg7mega (outDir mapper : PyStr) : Config :=
  { outputDir := outDir, mapper := mapper,
    coverageTool := "megadepth".data,
    samples := ["A".data, "B".data], analyses := [],
    target := ["genome_coverage".data] }

/-- The six per-sample bigwig file names of the bamCoverage branch in the
two-sample scenario. -/
def bamSuffixes : List PyStr :=
  ["A.forward.bw".data, "B.forward.bw".data,
   "A.reverse.bw".data, "B.reverse.bw".data,
   "A.bw".data, "B.bw".data]

/-- The two per-sample bigwig file names of the megadepth branch in the
two-sample scenario. -/
def megaSuffixes : List PyStr := ["A.all.bw".data, "B.all.bw".data]

/-- Concrete configuration requesting the multiqc group twice. -/
def cfgDup : Config :=
  { outputDir := "out".data, mapper := "star".data,
    coverageTool := "megadepth".data, samples := ["A".data],
    analyses := [], target := ["multiqc".data, "multiqc".data] }

/-- The file list the snakefile builds for `cfgDup`: the multiqc report
twice, then the annotations archive. -/
def dupList : List PyStr :=
  ["out/multiqc/multiqc_report.html".data,
   "out/multiqc/multiqc_report.html".data,
   "out/annotations.tgz".data]

/-- The bigwig list computed for `cfgDup`. -/
def bwDup : List PyStr := ["out/bigwig_files/star/megadepth/A.all.bw".data]

/-- Concrete configuration selecting only the help pseudo-target. -/
def cfgHelpEx : Config :=
  { outputDir := "out".data, mapper := "star".data,
    coverageTool := "megadepth".data, samples := ["A".data],
    analyses := [], target := ["help".data] }

/-- The required file list for `cfgHelpEx`: just the annotations archive. -/
def helpList : List PyStr := ["out/annotations.tgz".data]

/-- Concrete configuration with an unsupported coverage tool. -/
def cfgBadTool : Config :=
  { outputDir := "out".data, mapper := "star".data,
    coverageTool := "bedtools".data, samples := ["A".data],
    analyses := [], target := ["final-report".data] }

/-- Witness sheet with a single record that has no group column. -/
def sheetNoGroup : List Record :=
  [[("name".data, "A".data), ("reads".data, "A.fastq.gz".data)]]

/-- Witness record for the classification claim, a paired-end sample. -/
def recS1 : Record :=
  [("name".data, "S1".data), ("reads".data, "r1.fq".data),
   ("reads2".data, "r2.fq".data)]

/-- Witness sheet for the classification claim, one paired-end record. -/
def sheetOneSample : List Record := [recS1]

/-- Auxiliary: when every record has the column, the filtering comprehension
succeeds and returns exactly the matching records, in sheet order. -/
theorem filterRecords_ok (sheet : List Record) (column : PyStr) (p : Pred)
    (h : ∀ r ∈ sheet, (Record.get r column).isSome) :
    filterRecords sheet column p = Except.ok (matchingRecords sheet column p) := by
  induction sheet with
  | nil => rfl
  | cons r rs ih =>
      obtain ⟨v, hv⟩ := Option.isSome_iff_exists.mp (h r (List.mem_cons_self r rs))
      have hrest := ih (fun r2 hr2 => h r2 (List.mem_cons_of_mem _ hr2))
      simp only [filterRecords, getField, hv, hrest, matchingRecords,
        List.filter_cons]

/-- Auxiliary: when every requested field exists on the record, `fieldsOf`
returns the field values, in field order. -/
theorem fieldsOf_ok (r : Record) (fields : List PyStr)
    (h : ∀ f ∈ fields, (Record.get r f).isSome) :
    fieldsOf r fields = Except.ok (fields.filterMap (Record.get r)) := by
  induction fields with
  | nil => rfl
  | cons f fs ih =>
      obtain ⟨v, hv⟩ := Option.isSome_iff_exists.mp (h f (List.mem_cons_self f fs))
      have hrest := ih (fun g hg => h g (List.mem_cons_of_mem _ hg))
      simp [fieldsOf, getField, hv, hrest, List.filterMap_cons]

/-- Auxiliary: flattened field extraction over a record list. -/
theorem extractFields_ok (records : List Record) (fields : List PyStr)
    (h : ∀ r ∈ records, ∀ f ∈ fields, (Record.get r f).isSome) :
    extractFields records fields
      = Except.ok ((records.map (fun r => fields.filterMap (Record.get r))).flatten) := by
  induction records with
  | nil => rfl
  | cons r rs ih =>
      have h1 := fieldsOf_ok r fields (h r (List.mem_cons_self r rs))
      have hrest := ih (fun r2 hr2 => h r2 (List.mem_cons_of_mem _ hr2))
      simp [extractFields, h1, hrest]

/-- Auxiliary: with the empty field list every record contributes nothing. -/
theorem extractFields_nil (records : List Record) :
    extractFields records [] = Except.ok [] := by
  induction records with
  | nil => rfl
  | cons r rs ih => simp [extractFields, fieldsOf, ih]

/-- Auxiliary: `lookup` on a sheet where the column exists everywhere and
the requested fields exist on every matching record. -/
theorem lookup_ok (sheet : List Record) (column : PyStr) (p : Pred)
    (fields : List PyStr)
    (hcol : ∀ r ∈ sheet, (Record.get r column).isSome)
    (hf : ∀ r ∈ matchingRecords sheet column p, ∀ f ∈ fields,
      (Record.get r f).isSome) :
    lookup sheet column p fields
      = Except.ok (((matchingRecords sheet column p).map
          (fun r => fields.filterMap (Record.get r))).flatten) := by
  simp [lookup, filterRecords_ok sheet column p hcol, extractFields_ok _ _ hf]

/-- Auxiliary: a path the pre-run filesystem does not know is not in the
snapshot dict. -/
theorem dictFind_onstart_none (fsPre : PyStr → Option Nat) (outs : List PyStr)
    (n : PyStr) (h : fsPre n = none) :
    dictFind (onstart fsPre outs) n = none := by
  induction outs with
  | nil => rfl
  | cons m ms ih =>
      cases hm : fsPre m with
      | some t =>
          have hmn : m ≠ n := fun e => by rw [e, h] at hm; cases hm
          simp only [onstart, hm, dictFind]
          rw [if_neg hmn]
          exact ih
      | none => simpa only [onstart, hm] using ih

/-- Auxiliary: the snapshot dict built by `onstart` answers exactly the
pre-run filesystem on the recorded paths. -/
theorem dictFind_onstart (fsPre : PyStr → Option Nat) (outs : List PyStr)
    (n : PyStr) (h : n ∈ outs) :
    dictFind (onstart fsPre outs) n = fsPre n := by
  induction outs with
  | nil => cases h
  | cons m ms ih =>
      cases hm : fsPre m with
      | some t =>
          simp only [onstart, hm, dictFind]
          by_cases hmn : m = n
          · subst hmn
            rw [if_pos rfl, hm]
          · rw [if_neg hmn]
            refine ih ?_
            rcases List.mem_cons.mp h with h1 | h1
            · exact absurd h1.symm hmn
            · exact h1
      | none =>
          simp only [onstart, hm]
          by_cases hmn : m = n
          · subst hmn
            rw [hm]
            exact dictFind_onstart_none fsPre ms m hm
          · refine ih ?_
            rcases List.mem_cons.mp h with h1 | h1
            · exact absurd h1.symm hmn
            · exact h1

/-- Auxiliary: selecting target groups that all exist yields their file
lists in request order. -/
theorem selectFiles_ok (c : Config) (bw : List PyStr) (names : List PyStr)
    (h : ∀ n ∈ names, (targets c bw n).isSome) :
    selectFiles c bw names
      = Except.ok (names.map (fun n => (targets c bw n).getD [])) := by
  induction names with
  | nil => rfl
  | cons n ns ih =>
      obtain ⟨fs, hfs⟩ := Option.isSome_iff_exists.mp (h n (List.mem_cons_self n ns))
      have hrest := ih (fun m hm => h m (List.mem_cons_of_mem _ hm))
      simp [selectFiles, hfs, hrest]

/-- Auxiliary: the help group maps to the empty file list. -/
theorem targets_help (c : Config) (bw : List PyStr) :
    targets c bw "help".data = some [] := rfl

/-- Auxiliary: the genome-coverage group maps to the bigwig list. -/
theorem targets_genome_coverage (c : Config) (bw : List PyStr) :
    targets c bw "genome_coverage".data = some bw := rfl

/-- Auxiliary: the multiqc group maps to the multiqc report. -/
theorem targets_multiqc (c : Config) (bw : List PyStr) :
    targets c bw "multiqc".data
      = some [pyJoin2 (MULTIQC_DIR c) "multiqc_report.html".data] := rfl

/-- Auxiliary: `os.path.join` with a fixed first component is injective on
second components that are not absolute. -/
theorem pyJoin2_inj_right {a b1 b2 : PyStr} (h1 : b1.head? ≠ some '/')
    (h2 : b2.head? ≠ some '/') (h : pyJoin2 a b1 = pyJoin2 a b2) : b1 = b2 := by
  unfold pyJoin2 at h
  rw [if_neg h1, if_neg h2] at h
  by_cases ha : a = []
  · rw [if_pos ha, if_pos ha] at h
    exact List.append_cancel_left h
  · rw [if_neg ha, if_neg ha] at h
    by_cases hl : a.getLast? = some '/'
    · rw [if_pos hl, if_pos hl] at h
      exact List.append_cancel_left h
    · rw [if_neg hl, if_neg hl] at h
      exact (List.cons.inj (List.append_cancel_left h)).2

/-- Auxiliary: every element of a twice-flattened string list is a
one-character string. -/
theorem chainStrs_mem_len (l : List PyStr) (x : PyStr)
    (hx : x ∈ chainFromIterableStrs l) : x.length = 1 := by
  simp only [chainFromIterableStrs, List.mem_map] at hx
  obtain ⟨c2, _, rfl⟩ := hx
  rfl

/-- Auxiliary: re-flattening a list of strings reproduces it exactly when
every string in it has one character. -/
theorem chainStrs_eq_self_iff (l : List PyStr) :
    chainFromIterableStrs l = l ↔ ∀ p ∈ l, p.length = 1 := by
  induction l with
  | nil => simp [chainFromIterableStrs]
  | cons p rest ih =>
      constructor
      · intro h
        cases p with
        | nil =>
            exfalso
            have h0 : ([] : PyStr) ∈ chainFromIterableStrs ([] :: rest) := by
              rw [h]; exact List.mem_cons_self _ _
            have := chainStrs_mem_len _ _ h0
            simp at this
        | cons c p2 =>
            have h2 : chainFromIterableStrs ((c :: p2) :: rest)
                = [c] :: (p2.map (fun ch => [ch]) ++ chainFromIterableStrs rest) := by
              simp [chainFromIterableStrs]
            rw [h2] at h
            have hhead : ([c] : PyStr) = c :: p2 := (List.cons.inj h).1
            have hp2 : p2 = [] := ((List.cons.inj hhead).2).symm
            have htail := (List.cons.inj h).2
            rw [hp2] at htail
            simp only [List.map_nil, List.nil_append] at htail
            intro q hq
            rcases List.mem_cons.mp hq with h1 | h1
            · rw [h1, hp2]
              rfl
            · exact ih.mp htail q h1
      · intro hall
        have hp := hall p (List.mem_cons_self _ _)
        obtain ⟨c, rfl⟩ := List.length_eq_one.mp hp
        have hrest : chainFromIterableStrs rest = rest :=
          ih.mpr (fun q hq => hall q (List.mem_cons_of_mem _ hq))
        have hstep : chainFromIterableStrs ([c] :: rest)
            = [c] :: chainFromIterableStrs rest := by
          simp [chainFromIterableStrs]
        rw [hstep, hrest]

/-- C3: for every pre-run filesystem snapshot and every post-run
modification-time assignment (total, since after a fully successful run
every required file exists), the `onsuccess` report lists exactly those
files of the required set that were absent from the `onstart` snapshot or
whose modification time differs from the snapshotted one, and it lists
them in the original `OUTPUT_FILES` order (the report is a filter, hence a
sublist, of that list). -/
theorem change_report_exact (fsPre : PyStr → Option Nat) (fsPost : PyStr → Nat)
    (outputs : List PyStr) :
    onsuccess (onstart fsPre outputs) fsPost outputs
        = outputs.filter (specChanged fsPre fsPost)
      ∧ (outputs.filter (specChanged fsPre fsPost)).Sublist outputs := by
  constructor
  · unfold onsuccess
    apply List.filter_congr
    intro n hn
    simp only [changedQ, specChanged, dictFind_onstart fsPre outputs n hn]
  · exact List.filter_sublist outputs

/-- C10: calling `lookup` without an explicit fields argument takes the
Python default `fields=[]`, so the result is the empty list even when
records match the predicate (provided the column exists, so that no
KeyError interrupts the filtering first). -/
theorem lookup_default_fields_empty (sheet : List Record) (column : PyStr)
    (p : Pred) (h : ∀ r ∈ sheet, (Record.get r column).isSome) :
    lookupDefaultFields sheet column p = Except.ok [] := by
  simp [lookupDefaultFields, lookup, filterRecords_ok sheet column p h,
    extractFields_nil]

/-- C10 witness: on the two-sample sheet, looking sample A up by name
without a fields argument matches one record and still returns the empty
list. -/
theorem lookup_default_fields_empty_witness :
    lookupDefaultFields sheetAB "name".data (Pred.value "A".data) = Except.ok []
      ∧ matchingRecords sheetAB "name".data (Pred.value "A".data) ≠ [] :=
  ⟨lookup_default_fields_empty sheetAB "name".data (Pred.value "A".data)
    (by decide), by decide⟩

/-- C5 counterexample: on the empty sample sheet — where the requested
column exists on no record — `lookup` returns the empty sequence instead
of failing with a schema error, contradicting the claim as stated. -/
theorem lookup_missing_column_empty_sheet :
    lookup [] "group".data (Pred.value "x".data) ["reads".data]
      = Except.ok [] := rfl

/-- C5 amended: provided the sheet has at least one record, looking up a
column that exists on no record fails with the schema error (the KeyError
raised by the first record subscript, which names the offending column). -/
theorem lookup_missing_column_error (sheet : List Record) (column : PyStr)
    (p : Pred) (fields : List PyStr) (hne : sheet ≠ [])
    (habs : ∀ r ∈ sheet, Record.get r column = none) :
    lookup sheet column p fields
      = Except.error ("KeyError: ".data ++ column) := by
  cases sheet with
  | nil => exact absurd rfl hne
  | cons r rs =>
      have h1 : Record.get r column = none := habs r (List.mem_cons_self r rs)
      simp [lookup, filterRecords, getField, h1]

/-- C5 amended, witness: a one-record sheet without a group column. -/
theorem lookup_missing_column_error_witness :
    lookup sheetNoGroup "group".data (Pred.value "x".data) ["reads".data]
      = Except.error ("KeyError: ".data ++ "group".data) :=
  lookup_missing_column_error sheetNoGroup "group".data (Pred.value "x".data)
    ["reads".data] (by decide) (by decide)

/-- C6: for a column that exists on every record and any predicate (exact
value or test function), `lookup` returns the matching records field
values in the original sheet order (the match list is a filter, hence a
sublist, of the sheet), and returns the empty sequence — not an error —
when no record matches. -/
theorem lookup_matches_in_order (sheet : List Record) (column : PyStr)
    (p : Pred) (fields : List PyStr)
    (hcol : ∀ r ∈ sheet, (Record.get r column).isSome)
    (hf : ∀ r ∈ matchingRecords sheet column p, ∀ f ∈ fields,
      (Record.get r f).isSome) :
    lookup sheet column p fields
        = Except.ok (((matchingRecords sheet column p).map
            (fun r => fields.filterMap (Record.get r))).flatten)
      ∧ (matchingRecords sheet column p).Sublist sheet
      ∧ (matchingRecords sheet column p = [] →
          lookup sheet column p fields = Except.ok []) := by
  have hmain := lookup_ok sheet column p fields hcol hf
  refine ⟨hmain, List.filter_sublist sheet, ?_⟩
  intro hempty
  rw [hmain, hempty]
  rfl

/-- C6 witness: looking sample A up by exact name on the two-sample sheet
returns its reads field, and looking a missing name up returns the empty
sequence. -/
theorem lookup_matches_in_order_witness :
    lookup sheetAB "name".data (Pred.value "A".data) ["reads".data]
        = Except.ok (((matchingRecords sheetAB "name".data (Pred.value "A".data)).map
            (fun r => ["reads".data].filterMap (Record.get r))).flatten)
      ∧ (matchingRecords sheetAB "name".data (Pred.value "A".data)).Sublist sheetAB
      ∧ (matchingRecords sheetAB "name".data (Pred.value "A".data) = [] →
          lookup sheetAB "name".data (Pred.value "A".data) ["reads".data]
            = Except.ok []) :=
  lookup_matches_in_order sheetAB "name".data (Pred.value "A".data)
    ["reads".data] (by decide) (by decide)

/-- C8: when every record carries the name column, exactly one record bears
the sample name, and that record has both read columns with values `x` and
`y`, then `isSingleEnd` classifies the sample as single-end precisely when
exactly one of the two read fields is populated (non-empty), as paired-end
precisely when both are, and as neither — the function returns Python
`None` — precisely when neither is. -/
theorem isSingleEnd_classification (sheet : List Record) (sample : PyStr)
    (r : Record) (x y : PyStr)
    (hname : ∀ r2 ∈ sheet, (Record.get r2 "name".data).isSome)
    (huniq : matchingRecords sheet "name".data (Pred.value sample) = [r])
    (hx : Record.get r "reads".data = some x)
    (hy : Record.get r "reads2".data = some y) :
    (isSingleEnd sheet sample = Except.ok (some true)
        ↔ ((x ≠ [] ∧ y = []) ∨ (x = [] ∧ y ≠ [])))
      ∧ (isSingleEnd sheet sample = Except.ok (some false)
        ↔ (x ≠ [] ∧ y ≠ []))
      ∧ (isSingleEnd sheet sample = Except.ok none
        ↔ (x = [] ∧ y = [])) := by
  have hlk : lookup sheet "name".data (Pred.value sample)
      ["reads".data, "reads2".data] = Except.ok [x, y] := by
    have hfields : ∀ r2 ∈ matchingRecords sheet "name".data (Pred.value sample),
        ∀ f ∈ ["reads".data, "reads2".data], (Record.get r2 f).isSome := by
      intro r2 hr2 f hfm
      rw [huniq] at hr2
      rcases List.mem_singleton.mp hr2 with rfl
      rcases List.mem_cons.mp hfm with h1 | h1
      · rw [h1, hx]; rfl
      · rcases List.mem_singleton.mp h1 with rfl
        rw [hy]; rfl
    have h := lookup_ok sheet "name".data (Pred.value sample)
      ["reads".data, "reads2".data] hname hfields
    rw [h, huniq]
    simp [List.filterMap_cons, hx, hy]
  unfold isSingleEnd
  rw [hlk]
  by_cases hxe : x = []
  · by_cases hye : y = []
    · subst hxe; subst hye
      refine ⟨?_, ?_, ?_⟩ <;> simp
    · obtain ⟨cy, ty, rfl⟩ := List.exists_cons_of_ne_nil hye
      subst hxe
      refine ⟨?_, ?_, ?_⟩ <;> simp [List.countP_cons]
  · obtain ⟨cx, tx, rfl⟩ := List.exists_cons_of_ne_nil hxe
    by_cases hye : y = []
    · subst hye
      refine ⟨?_, ?_, ?_⟩ <;> simp [List.countP_cons]
    · obtain ⟨cy, ty, rfl⟩ := List.exists_cons_of_ne_nil hye
      refine ⟨?_, ?_, ?_⟩ <;> simp [List.countP_cons]

/-- C8 witness: a one-record sheet with a paired-end sample S1. -/
theorem isSingleEnd_classification_witness :
    (isSingleEnd sheetOneSample "S1".data = Except.ok (some true)
        ↔ (("r1.fq".data ≠ ([] : PyStr) ∧ "r2.fq".data = ([] : PyStr))
            ∨ ("r1.fq".data = ([] : PyStr) ∧ "r2.fq".data ≠ ([] : PyStr))))
      ∧ (isSingleEnd sheetOneSample "S1".data = Except.ok (some false)
        ↔ ("r1.fq".data ≠ ([] : PyStr) ∧ "r2.fq".data ≠ ([] : PyStr)))
      ∧ (isSingleEnd sheetOneSample "S1".data = Except.ok none
        ↔ ("r1.fq".data = ([] : PyStr) ∧ "r2.fq".data = ([] : PyStr))) :=
  isSingleEnd_classification sheetOneSample "S1".data recS1
    "r1.fq".data "r2.fq".data (by decide) (by decide) (by decide) (by decide)

/-- Auxiliary: the value of `BIGWIG_OUTPUT` on the bamCoverage branch. -/
theorem BIGWIG_OUTPUT_bam (c : Config)
    (h : c.coverageTool = "bamCoverage".data) :
    BIGWIG_OUTPUT c = Except.ok
      ((c.samples.map (fun s => pyJoin2 (bamCoverageDir c) (s ++ ".forward.bw".data)))
        ++ (c.samples.map (fun s => pyJoin2 (bamCoverageDir c) (s ++ ".reverse.bw".data)))
        ++ (c.samples.map (fun s => pyJoin2 (bamCoverageDir c) (s ++ ".bw".data)))) := by
  unfold BIGWIG_OUTPUT
  rw [if_pos h]

/-- Auxiliary: the value of `BIGWIG_OUTPUT` on the megadepth branch. -/
theorem BIGWIG_OUTPUT_mega (c : Config)
    (h : c.coverageTool = "megadepth".data) :
    BIGWIG_OUTPUT c = Except.ok
      (c.samples.map (fun s => pyJoin2 (megadepthDir c) (s ++ ".all.bw".data))) := by
  unfold BIGWIG_OUTPUT
  rw [if_neg (by rw [h]; decide), if_pos h]

/-- Auxiliary: the shape of `OUTPUT_FILES` once the bigwig computation and
the group selection are known. -/
theorem OUTPUT_FILES_eq (c : Config) (bw : List PyStr)
    (hbw : BIGWIG_OUTPUT c = Except.ok bw) (lists : List (List PyStr))
    (hsf : selectFiles c bw (selectedTargets c) = Except.ok lists) :
    OUTPUT_FILES c = Except.ok (chainFromIterable lists
      ++ [pyJoin2 c.outputDir "annotations.tgz".data]) := by
  simp only [OUTPUT_FILES, hbw, hsf]

/-- C9: when the coverage tool is one of the two allowed values and only
the help pseudo-target is selected, the required file set is exactly the
one fixed annotations archive, since the help group file list is empty. -/
theorem help_target_files (c : Config)
    (hcov : c.coverageTool = "bamCoverage".data
      ∨ c.coverageTool = "megadepth".data)
    (ht : c.target = ["help".data]) :
    OUTPUT_FILES c = Except.ok [pyJoin2 c.outputDir "annotations.tgz".data]
      ∧ (∀ bw, targets c bw "help".data = some []) := by
  refine ⟨?_, fun bw => targets_help c bw⟩
  obtain ⟨bw, hbw⟩ : ∃ bw, BIGWIG_OUTPUT c = Except.ok bw := by
    rcases hcov with h | h
    · exact ⟨_, BIGWIG_OUTPUT_bam c h⟩
    · exact ⟨_, BIGWIG_OUTPUT_mega c h⟩
  have hsel : selectedTargets c = ["help".data] := by
    unfold selectedTargets
    rw [ht]
    rfl
  have hsf : selectFiles c bw (selectedTargets c) = Except.ok [[]] := by
    rw [hsel]
    rfl
  exact OUTPUT_FILES_eq c bw hbw [[]] hsf

/-- C9 witness: a concrete configuration selecting only help. -/
theorem help_target_files_witness :
    OUTPUT_FILES cfgHelpEx
        = Except.ok [pyJoin2 cfgHelpEx.outputDir "annotations.tgz".data]
      ∧ (∀ bw, targets cfgHelpEx bw "help".data = some []) :=
  help_target_files cfgHelpEx (Or.inr rfl) rfl

/-- C2: any coverage tool other than bamCoverage or megadepth makes the
module exit with the fixed error message — before the target table or the
required file set is built, whatever the selection, so no partial result
exists — and the message names the offending option (coverage->tool) and
both allowed values; either allowed value produces no such error. -/
theorem coverage_tool_validation :
    (∀ c : Config, c.coverageTool ≠ "bamCoverage".data →
      c.coverageTool ≠ "megadepth".data →
        BIGWIG_OUTPUT c = Except.error covErrMsg
          ∧ OUTPUT_FILES c = Except.error covErrMsg)
    ∧ occursIn "coverage->tool".data covErrMsg = true
    ∧ occursIn "megadepth".data covErrMsg = true
    ∧ occursIn "bamCoverage".data covErrMsg = true
    ∧ (∀ c : Config,
        c.coverageTool = "bamCoverage".data
          ∨ c.coverageTool = "megadepth".data →
        ∃ l, BIGWIG_OUTPUT c = Except.ok l) := by
  refine ⟨?_, by decide, by decide, by decide, ?_⟩
  · intro c h1 h2
    have hb : BIGWIG_OUTPUT c = Except.error covErrMsg := by
      unfold BIGWIG_OUTPUT
      rw [if_neg h1, if_neg h2]
    exact ⟨hb, by simp [OUTPUT_FILES, hb]⟩
  · intro c h
    rcases h with h | h
    · exact ⟨_, BIGWIG_OUTPUT_bam c h⟩
    · exact ⟨_, BIGWIG_OUTPUT_mega c h⟩

/-- C2 witness: the unsupported tool bedtools is rejected with the message,
while the allowed tool megadepth is accepted. -/
theorem coverage_tool_validation_witness :
    BIGWIG_OUTPUT cfgBadTool = Except.error covErrMsg
      ∧ OUTPUT_FILES cfgBadTool = Except.error covErrMsg
      ∧ (∃ l, BIGWIG_OUTPUT cfgHelpEx = Except.ok l) :=
  ⟨(coverage_tool_validation.1 cfgBadTool (by decide) (by decide)).1,
   (coverage_tool_validation.1 cfgBadTool (by decide) (by decide)).2,
   coverage_tool_validation.2.2.2.2 cfgHelpEx (Or.inr rfl)⟩

/-- C1 amended: for every selection whose names all exist in the target
table, the required file list is the single flattening of the selected
groups file lists, in request order and with duplicates preserved (the
source performs no deduplication), followed by the one fixed annotations
archive. -/
theorem output_files_concat (c : Config) (bw : List PyStr)
    (hbw : BIGWIG_OUTPUT c = Except.ok bw)
    (hv : ∀ n ∈ selectedTargets c, (targets c bw n).isSome) :
    OUTPUT_FILES c = Except.ok
      (((selectedTargets c).map (fun n => (targets c bw n).getD [])).flatten
        ++ [pyJoin2 c.outputDir "annotations.tgz".data]) :=
  OUTPUT_FILES_eq c bw hbw _ (selectFiles_ok c bw (selectedTargets c) hv)

/-- C1 amended, witness: the duplicate multiqc selection evaluated
concretely. -/
theorem output_files_concat_witness :
    OUTPUT_FILES cfgDup = Except.ok
      (((selectedTargets cfgDup).map
          (fun n => (targets cfgDup bwDup n).getD [])).flatten
        ++ [pyJoin2 cfgDup.outputDir "annotations.tgz".data]) :=
  output_files_concat cfgDup bwDup (by decide) (by decide)

/-- C1 counterexample: requesting the multiqc group twice yields the
multiqc report path twice — the required file list is not duplicate-free
and differs from the deduplicated union plus archive the claim
describes. -/
theorem output_files_dup_counterexample :
    OUTPUT_FILES cfgDup = Except.ok dupList
      ∧ ¬ dupList.Nodup
      ∧ dupList ≠ specRequiredFileSet cfgDup bwDup cfgDup.target
      ∧ BIGWIG_OUTPUT cfgDup = Except.ok bwDup :=
  ⟨by decide, by decide, by decide, by decide⟩

/-- C4 amended: a second application of the flattening operation to the
once-flattened required file list iterates each path string into its
one-character strings, so it reproduces the list exactly when every path
in it is a single character — the source flattening is not idempotent on
its own output. -/
theorem flatten_twice_singleton_iff (c : Config) (files : List PyStr)
    (_hfiles : OUTPUT_FILES c = Except.ok files) :
    chainFromIterableStrs files = files ↔ ∀ p ∈ files, p.length = 1 :=
  chainStrs_eq_self_iff files

/-- C4 amended, witness: evaluated on the help-only configuration. -/
theorem flatten_twice_singleton_iff_witness :
    chainFromIterableStrs helpList = helpList
      ↔ ∀ p ∈ helpList, p.length = 1 :=
  flatten_twice_singleton_iff cfgHelpEx helpList (by decide)

/-- C4 counterexample: flattening the resolved required file list a second
time splits the annotations-archive path into one-character strings, which
differs from the once-flattened list, so flattening twice is not the same
as flattening once. -/
theorem flatten_twice_counterexample :
    OUTPUT_FILES cfgHelpEx = Except.ok helpList
      ∧ chainFromIterableStrs helpList ≠ helpList :=
  ⟨by decide, by decide⟩

/-- C7: in the two-sample scenario — sample A paired-end (both read fields
populated), sample B single-end (only the first) — the coverage target
group holds exactly six pairwise distinct paths under bamCoverage
(forward, reverse and combined per sample) and exactly two under
megadepth (one per sample), for every output directory and mapper. -/
theorem coverage_group_scenario (outDir mapper : PyStr) :
    SAMPLES sheetAB = Except.ok ["A".data, "B".data]
      ∧ isSingleEnd sheetAB "A".data = Except.ok (some false)
      ∧ isSingleEnd sheetAB "B".data = Except.ok (some true)
      ∧ (∃ l, BIGWIG_OUTPUT (cfg7bam outDir mapper) = Except.ok l
          ∧ targets (cfg7bam outDir mapper) l "genome_coverage".data = some l
          ∧ l.length = 6 ∧ l.Nodup)
      ∧ (∃ l, BIGWIG_OUTPUT (cfg7mega outDir mapper) = Except.ok l
          ∧ targets (cfg7mega outDir mapper) l "genome_coverage".data = some l
          ∧ l.length = 2 ∧ l.Nodup) := by
  have hheadBam : ∀ z ∈ bamSuffixes, z.head? ≠ some '/' := by decide
  have hheadMega : ∀ z ∈ megaSuffixes, z.head? ≠ some '/' := by decide
  refine ⟨by decide, by decide, by decide, ?_, ?_⟩
  · refine ⟨bamSuffixes.map (pyJoin2 (bamCoverageDir (cfg7bam outDir mapper))),
      ?_, targets_genome_coverage _ _, rfl, ?_⟩
    · rw [BIGWIG_OUTPUT_bam _ rfl]
      rfl
    · refine List.Nodup.map_on ?_ (by decide)
      intro p hp q hq hpq
      exact pyJoin2_inj_right (hheadBam p hp) (hheadBam q hq) hpq
  · refine ⟨megaSuffixes.map (pyJoin2 (megadepthDir (cfg7mega outDir mapper))),
      ?_, targets_genome_coverage _ _, rfl, ?_⟩
    · rw [BIGWIG_OUTPUT_mega _ rfl]
      rfl
    · refine List.Nodup.map_on ?_ (by decide)
      intro p hp q hq hpq
      exact pyJoin2_inj_right (hheadMega p hp) (hheadMega q hq) hpq

end PigxRnaseq
